import Mathlib

/-!
Shallow embedding of the Cookiez real-time match simulation core
(src/game/math.js, src/game/Weapons.js, src/game/Player.js, src/game/GameApp.js)
and proofs about its weapon model, player damage model, task gating,
collision resolver and match state machine.

Machine numbers of the source are modelled as `ℚ` (timers, health, positions)
and `ℤ`/`ℕ` (ammo counts, scores, task levels).
-/

namespace Cookiez

/-- clamp from math.js: `Math.max(lo, Math.min(hi, v))`. -/
def clamp {α : Type} [LinearOrder α] (v lo hi : α) : α :=
  max lo (min hi v)

/-! ### Weapons.js -/

/-- Weapon type enum from Weapons.js (KNIFE / PISTOL / VANDAL / SNIPER). -/
inductive WeaponType
  | knife
  | pistol
  | vandal
  | sniper
  deriving DecidableEq, Repr

/-- weaponForTaskLevel from Weapons.js: spawn starts with knife (0),
completing tasks upgrades through 1..3. -/
def weaponForTaskLevel (level : ℤ) : WeaponType :=
  if level ≤ 0 then .knife
  else if level = 1 then .pistol
  else if level = 2 then .vandal
  else .sniper

/-- damageForWeapon from Weapons.js (the `default` arm of the switch returns 10). -/
def damageForWeapon (t : WeaponType) : ℚ :=
  match t with
  | .knife => 40
  | .pistol => 25
  | .vandal => 50
  | .sniper => 100

/-- Per-player weapon state from Weapons.js: ammo model (mag + reserve),
cooldown and reload timers, and the sniper hold-to-zoom state. -/
structure WeaponState where
  type : WeaponType
  mag : ℤ
  reserve : ℤ
  cooldown : ℚ
  reloadTimer : ℚ
  sniperAiming : Bool
  sniperZoom01 : ℚ
  deriving DecidableEq, Repr

/-- WeaponState constructor defaults. -/
def WeaponState.init : WeaponState :=
  { type := .knife, mag := 0, reserve := 0, cooldown := 0, reloadTimer := 0,
    sniperAiming := false, sniperZoom01 := 0 }

/-- WeaponState.setWeapon: resets cooldown/reload/zoom state and fills
mag/reserve with the type's defaults. -/
def WeaponState.setWeapon (s : WeaponState) (t : WeaponType) : WeaponState :=
  let base : WeaponState :=
    { s with type := t, cooldown := 0, reloadTimer := 0,
             sniperAiming := false, sniperZoom01 := 0 }
  match t with
  | .knife => { base with mag := 0, reserve := 0 }
  | .pistol => { base with mag := 12, reserve := 48 }
  | .vandal => { base with mag := 30, reserve := 90 }
  | .sniper => { base with mag := 5, reserve := 20 }

/-- WeaponState.getMaxMag. -/
def WeaponState.getMaxMag (s : WeaponState) : ℤ :=
  match s.type with
  | .pistol => 12
  | .vandal => 30
  | .sniper => 5
  | .knife => 0

/-- WeaponState.canShoot: false while reloading or cooling down; knife can
always otherwise shoot; magazine weapons need mag > 0. -/
def WeaponState.canShoot (s : WeaponState) : Bool :=
  if 0 < s.reloadTimer then false
  else if 0 < s.cooldown then false
  else if s.type = .knife then true
  else decide (0 < s.mag)

/-- Reload duration per weapon, inlined in WeaponState.startReload in the
source: sniper 1.6, vandal 1.35, otherwise 1.1. -/
def reloadDuration (t : WeaponType) : ℚ :=
  if t = .sniper then 16 / 10
  else if t = .vandal then 135 / 100
  else 11 / 10

/-- WeaponState.startReload: returns `(new state, whether a reload began)`.
Fails on knife, while already reloading, with a full magazine, or with an
empty reserve. -/
def WeaponState.startReload (s : WeaponState) : WeaponState × Bool :=
  if s.type = .knife then (s, false)
  else if 0 < s.reloadTimer then (s, false)
  else if s.getMaxMag ≤ s.mag then (s, false)
  else if s.reserve ≤ 0 then (s, false)
  else ({ s with reloadTimer := reloadDuration s.type }, true)

/-- WeaponState.update(dt): decrements cooldown and reload timers, transfers
`min(reserve, max(0, maxMag - mag))` ammo on reload completion, and smooths
the sniper zoom toward its target.  The smoothing factor
`1 - Math.exp(-10 * dt)` is a transcendental function of `dt`; it is passed
as the explicit argument `smooth` instead of being recomputed here. -/
def WeaponState.update (s : WeaponState) (dt smooth : ℚ) : WeaponState :=
  let s1 := if 0 < s.cooldown then { s with cooldown := max 0 (s.cooldown - dt) } else s
  let s2 :=
    if 0 < s1.reloadTimer then
      let rt := max 0 (s1.reloadTimer - dt)
      if rt = 0 then
        let maxM := s1.getMaxMag
        let needed := max 0 (maxM - s1.mag)
        let take := min s1.reserve needed
        { s1 with reloadTimer := rt, mag := s1.mag + take, reserve := s1.reserve - take }
      else { s1 with reloadTimer := rt }
    else s1
  let target : ℚ := if s2.sniperAiming then 1 else 0
  { s2 with sniperZoom01 := clamp (s2.sniperZoom01 + (target - s2.sniperZoom01) * smooth) 0 1 }

/-- WeaponState.consumeShot: decrements the magazine (clamped at 0, no-op for
knife) and sets the per-type fire cooldown. -/
def WeaponState.consumeShot (s : WeaponState) : WeaponState :=
  let s1 := if s.type ≠ .knife then { s with mag := max 0 (s.mag - 1) } else s
  match s1.type with
  | .knife => { s1 with cooldown := 45 / 100 }
  | .pistol => { s1 with cooldown := 22 / 100 }
  | .vandal => { s1 with cooldown := 11 / 100 }
  | .sniper => { s1 with cooldown := 85 / 100 }

/-! ### Player.js -/

/-- 3-component vector (THREE.Vector3 over ℚ). -/
structure Vec3 where
  x : ℚ
  y : ℚ
  z : ℚ
  deriving DecidableEq, Repr

/-- Zero vector. -/
def Vec3.zero : Vec3 := ⟨0, 0, 0⟩

/-- PLAYER_RADIUS = 0.45 from Player.js. -/
def PLAYER_RADIUS : ℚ := 45 / 100

/-- PLAYER_HEIGHT = 1.75 from Player.js. -/
def PLAYER_HEIGHT : ℚ := 175 / 100

/-- Simulation-relevant per-player state from Player.js (rendering fields
omitted). -/
structure Player where
  pos : Vec3
  vel : Vec3
  hp : ℚ
  maxHp : ℚ
  dead : Bool
  deathTimer : ℚ
  invulnTimer : ℚ
  invulnDuration : ℚ
  controlsLocked : Bool
  taskLevel : ℤ
  deriving DecidableEq, Repr

/-- Player constructor defaults. -/
def Player.init : Player :=
  { pos := .zero, vel := .zero, hp := 100, maxHp := 100, dead := false,
    deathTimer := 0, invulnTimer := 0, invulnDuration := 3,
    controlsLocked := false, taskLevel := 0 }

/-- Player.startInvuln. -/
def Player.startInvuln (p : Player) : Player :=
  { p with invulnTimer := p.invulnDuration }

/-- Player.takeDamage(amount): returns `(new state, whether this damage
killed)`.  Ignored while invulnerable or dead; health is clamped at zero and
crossing zero sets the dead flag and the 0.7s death blackout timer. -/
def Player.takeDamage (p : Player) (amount : ℚ) : Player × Bool :=
  if 0 < p.invulnTimer ∨ p.dead then (p, false)
  else
    let hp := max 0 (p.hp - amount)
    if hp ≤ 0 then ({ p with hp := hp, dead := true, deathTimer := 7 / 10 }, true)
    else ({ p with hp := hp }, false)

/-- Player.respawnAt(pos): clears the dead flag, restores health, zeroes
velocity, repositions and starts invulnerability. -/
def Player.respawnAt (p : Player) (pos : Vec3) : Player :=
  Player.startInvuln { p with dead := false, hp := p.maxHp, vel := .zero, pos := pos }

/-! ### GameApp.js: match state machine, kills and scores -/

/-- Match phase enum (MENU → TRANSITION → ELEVATOR → PLAY → WIN). -/
inductive Phase
  | menu
  | transition
  | elevator
  | play
  | win
  deriving DecidableEq, Repr

/-- Player slot identifiers. -/
inductive PlayerId
  | p1
  | p2
  deriving DecidableEq, Repr

/-- WIN_KILLS = 10 from GameApp.js. -/
def WIN_KILLS : ℕ := 10

/-- Round bookkeeping owned by GameApp: current phase and per-player scores. -/
structure RoundState where
  phase : Phase
  scoreP1 : ℕ
  scoreP2 : ℕ
  deriving DecidableEq, Repr

/-- Score lookup `this.scores[id]`. -/
def RoundState.score (s : RoundState) : PlayerId → ℕ
  | .p1 => s.scoreP1
  | .p2 => s.scoreP2

/-- GameApp._onKill (score part) followed by GameApp._enterWin: increment the
killer's score and enter WIN once it reaches the threshold. -/
def RoundState.onKill (s : RoundState) (killer : PlayerId) : RoundState :=
  let s1 :=
    match killer with
    | .p1 => { s with scoreP1 := s.scoreP1 + 1 }
    | .p2 => { s with scoreP2 := s.scoreP2 + 1 }
  if WIN_KILLS ≤ s1.score killer then { s1 with phase := .win } else s1

/-- Combat (firing, hazards, and hence `_onKill`) only runs while the frame
loop is in the ELEVATOR or PLAY phase (GameApp._update). -/
def combatActive (ph : Phase) : Bool :=
  ph = .elevator || ph = .play

/-- One kill event as generated by the frame loop: `_onKill` fires only while
combat is simulated. -/
def RoundState.stepKill (s : RoundState) (killer : PlayerId) : RoundState :=
  if combatActive s.phase then s.onKill killer else s

/-- A round's sequence of kill events, folded over the round state. -/
def RoundState.runKills (s : RoundState) (ks : List PlayerId) : RoundState :=
  ks.foldl RoundState.stepKill s

/-- Round start: combat phase entered with both scores zeroed
(GameApp._resetRound ran before the round began). -/
def roundStart : RoundState :=
  { phase := .play, scoreP1 := 0, scoreP2 := 0 }

/-! ### GameApp.js: task gating -/

/-- GameApp._tryOpenTask: rejected when the player is dead or the requested
index differs from the player's task level; otherwise locks controls and
opens the task.  Returns `(new player state, accepted)`. -/
def tryOpenTask (p : Player) (taskIndex : ℤ) : Player × Bool :=
  if p.dead then (p, false)
  else if taskIndex ≠ p.taskLevel then (p, false)
  else ({ p with controlsLocked := true }, true)

/-- GameApp._onTaskComplete: for the matching index, advance the task level
(clamped to 0..3) and re-equip the weapon tier for the new level.  Returns
the updated player and the updated weapon state. -/
def onTaskComplete (p : Player) (w : WeaponState) (taskIndex : ℤ) :
    Player × WeaponState :=
  if taskIndex ≠ p.taskLevel then (p, w)
  else
    let lvl := clamp (p.taskLevel + 1) 0 3
    ({ p with taskLevel := lvl }, w.setWeapon (weaponForTaskLevel lvl))

/-! ### GameApp.js: elevator phase countdown (ELEVATOR branch of _update) -/

/-- Elevator-phase state: the phase, the countdown `elevator.t`, the door-open
ramp `elevator.doorOpen01` and the fight banner timer
`elevator.fightMsgTimer`. -/
structure ElevState where
  phase : Phase
  t : ℚ
  doorOpen01 : ℚ
  fightMsgTimer : ℚ
  deriving DecidableEq, Repr

/-- Elevator state as set by GameApp._beginElevatorPhase. -/
def elevStart : ElevState :=
  { phase := .elevator, t := 16, doorOpen01 := 0, fightMsgTimer := 0 }

/-- One frame of the ELEVATOR branch of GameApp._update: run the countdown;
once it reaches zero, ramp the door open at rate 1.2/s, run the FIGHT banner
timer (rearming it whenever it is ≤ 0), and enter PLAY exactly when the door
ramp has reached 1 and the banner timer has run out. -/
def elevatorStep (s : ElevState) (dt : ℚ) : ElevState :=
  if s.phase ≠ .elevator then s
  else
    let t1 := max 0 (s.t - dt)
    if t1 ≤ 0 then
      let door := min 1 (s.doorOpen01 + dt * (12 / 10))
      let fm0 : ℚ := if s.fightMsgTimer ≤ 0 then 16 / 10 else s.fightMsgTimer
      let fm := max 0 (fm0 - dt)
      let ph : Phase := if 1 ≤ door ∧ fm ≤ 0 then .play else .elevator
      { phase := ph, t := t1, doorOpen01 := door, fightMsgTimer := fm }
    else
      { s with t := t1 }

/-! ### GameApp.js: collision resolver -/

/-- Axis-aligned box (THREE.Box3 over ℚ). -/
structure Box3 where
  min : Vec3
  max : Vec3
  deriving DecidableEq, Repr

/-- World collider entry: box plus the optional disabled flag
(used for the elevator door once sufficiently open). -/
structure Collider where
  box : Box3
  disabled : Bool
  deriving DecidableEq, Repr

/-- Kinematic body: a player's position and velocity as used by
GameApp._resolveWorldCollisions. -/
structure Body where
  pos : Vec3
  vel : Vec3
  deriving DecidableEq, Repr

/-- The player's AABB (from capsule radius/height) misses the box on some
axis, so the collider is skipped (the early `continue` test). -/
def aabbSeparated (p : Body) (b : Box3) : Prop :=
  p.pos.x + PLAYER_RADIUS < b.min.x ∨ b.max.x < p.pos.x - PLAYER_RADIUS ∨
  p.pos.y + PLAYER_HEIGHT < b.min.y ∨ b.max.y < p.pos.y ∨
  p.pos.z + PLAYER_RADIUS < b.min.z ∨ b.max.z < p.pos.z - PLAYER_RADIUS

instance (p : Body) (b : Box3) : Decidable (aabbSeparated p b) := by
  unfold aabbSeparated
  infer_instance

/-- Penetration depth of the player AABB into box `b` along X:
`min(playerMax.x - b.min.x, b.max.x - playerMin.x)`. -/
def penX (p : Body) (b : Box3) : ℚ :=
  min (p.pos.x + PLAYER_RADIUS - b.min.x) (b.max.x - (p.pos.x - PLAYER_RADIUS))

/-- Penetration depth of the player AABB into box `b` along Z. -/
def penZ (p : Body) (b : Box3) : ℚ :=
  min (p.pos.z + PLAYER_RADIUS - b.min.z) (b.max.z - (p.pos.z - PLAYER_RADIUS))

/-- Loop body of GameApp._resolveWorldCollisions for one enabled collider:
skip if the AABBs are separated on any axis, otherwise push the player out
along the axis (X or Z) with the smaller overlap and zero that axis's
velocity component. -/
def resolveCollider (p : Body) (b : Box3) : Body :=
  if aabbSeparated p b then p
  else
    let boxCx := (b.min.x + b.max.x) / 2
    let boxCz := (b.min.z + b.max.z) / 2
    let overlapX := penX p b
    let overlapZ := penZ p b
    if overlapX < overlapZ then
      let dir : ℚ := if p.pos.x < boxCx then -1 else 1
      { pos := { p.pos with x := p.pos.x + dir * overlapX },
        vel := { p.vel with x := 0 } }
    else
      let dir : ℚ := if p.pos.z < boxCz then -1 else 1
      { pos := { p.pos with z := p.pos.z + dir * overlapZ },
        vel := { p.vel with z := 0 } }

/-- GameApp._resolveWorldCollisions: per-collider independent passes in
provider order, skipping disabled colliders. -/
def resolveWorldCollisions (p : Body) (cs : List Collider) : Body :=
  cs.foldl (fun q c => if c.disabled then q else resolveCollider q c.box) p

/-! ### GameApp.js: hitscan fire attempt (weapon-state effect) -/

/-- Weapon-state effect of GameApp._shootHitscan: if the weapon cannot shoot,
no shot is dispatched and, when the magazine is empty, a reload is started
instead; otherwise the raycast is dispatched and one shot is consumed.
Returns `(new weapon state, whether a shot was dispatched)`.  The raycast and
damage application do not touch the weapon state and are not modelled here. -/
def shootHitscanAmmo (s : WeaponState) : WeaponState × Bool :=
  if s.canShoot then (s.consumeShot, true)
  else if s.mag = 0 then (s.startReload.1, false)
  else (s, false)

/-! ### Weapon operation sequences (for the weapon-state invariant) -/

/-- One external operation on a WeaponState. -/
inductive WOp
  | setW (t : WeaponType)
  | startR
  | upd (dt smooth : ℚ)
  | consume
  deriving DecidableEq, Repr

/-- Validity of one operation: updates use a nonnegative timestep. -/
def WOp.valid : WOp → Prop
  | .upd dt _ => 0 ≤ dt
  | _ => True

/-- Apply one operation. -/
def applyW (s : WeaponState) : WOp → WeaponState
  | .setW t => s.setWeapon t
  | .startR => s.startReload.1
  | .upd dt smooth => s.update dt smooth
  | .consume => s.consumeShot

/-- Apply a sequence of operations from left to right. -/
def runW (s : WeaponState) (ops : List WOp) : WeaponState :=
  ops.foldl applyW s

/-- Weapon ammo invariant: `0 ≤ mag ≤ getMaxMag` and `0 ≤ reserve`. -/
def WInv (s : WeaponState) : Prop :=
  0 ≤ s.mag ∧ s.mag ≤ s.getMaxMag ∧ 0 ≤ s.reserve

/-- Player health/death invariant: an alive player has positive health
(strengthened with the constant `maxHp = 100` set once by the constructor). -/
def PInv (p : Player) : Prop :=
  (p.dead = false → 0 < p.hp) ∧ p.maxHp = 100

/-! ## Helper lemmas (shared) -/

/-- getMaxMag is never negative. -/
theorem getMaxMag_nonneg (s : WeaponState) : 0 ≤ s.getMaxMag := by
  unfold WeaponState.getMaxMag
  cases s.type <;> norm_num

/-- getMaxMag is positive for every magazine weapon. -/
theorem getMaxMag_pos_of_ne_knife (s : WeaponState) (h : s.type ≠ .knife) :
    0 < s.getMaxMag := by
  unfold WeaponState.getMaxMag
  cases htype : s.type <;> simp_all

/-- Reload durations are positive. -/
theorem reloadDuration_pos (t : WeaponType) : 0 < reloadDuration t := by
  unfold reloadDuration
  split_ifs <;> norm_num

/-- startReload only ever touches the reload timer. -/
theorem startReload_fields (s : WeaponState) :
    (s.startReload.1).type = s.type ∧ (s.startReload.1).mag = s.mag ∧
    (s.startReload.1).reserve = s.reserve ∧ (s.startReload.1).cooldown = s.cooldown := by
  unfold WeaponState.startReload
  split_ifs <;> exact ⟨rfl, rfl, rfl, rfl⟩

/-- When an in-progress reload's timer elapses within one update step, the
ammo transfer happens: `min(reserve, max(0, maxMag - mag))` moves from
reserve to magazine and the reload timer reaches 0. -/
theorem update_reload_elapse (s : WeaponState) (dt smooth : ℚ)
    (hrt : 0 < s.reloadTimer) (hel : s.reloadTimer ≤ dt) :
    (s.update dt smooth).mag = s.mag + min s.reserve (max 0 (s.getMaxMag - s.mag)) ∧
    (s.update dt smooth).reserve = s.reserve - min s.reserve (max 0 (s.getMaxMag - s.mag)) ∧
    (s.update dt smooth).reloadTimer = 0 ∧
    (s.update dt smooth).type = s.type := by
  obtain ⟨t, mag, res, cd, rt, aim, zoom⟩ := s
  simp only at hrt hel
  have hmax : max 0 (rt - dt) = 0 := max_eq_left (by linarith)
  unfold WeaponState.update
  dsimp only
  split_ifs with h1 h2 h3 h4 <;> simp_all [WeaponState.getMaxMag]

/-- When an in-progress reload's timer does not elapse in this update step,
the ammo is untouched and the timer just counts down. -/
theorem update_reload_partial (s : WeaponState) (dt smooth : ℚ)
    (hrt : 0 < s.reloadTimer) (hel : dt < s.reloadTimer) :
    (s.update dt smooth).mag = s.mag ∧
    (s.update dt smooth).reserve = s.reserve ∧
    (s.update dt smooth).reloadTimer = s.reloadTimer - dt ∧
    (s.update dt smooth).type = s.type := by
  obtain ⟨t, mag, res, cd, rt, aim, zoom⟩ := s
  simp only at hrt hel
  have hmax : max 0 (rt - dt) = rt - dt := max_eq_right (by linarith)
  have hne : ¬(rt - dt = 0) := by intro h; linarith [sub_eq_zero.mp h]
  unfold WeaponState.update
  dsimp only
  split_ifs with h1 h2 h3 h4 <;> simp_all

/-- An update step with no reload in progress leaves ammo and the reload
timer untouched. -/
theorem update_no_reload (s : WeaponState) (dt smooth : ℚ)
    (hrt : s.reloadTimer ≤ 0) :
    (s.update dt smooth).mag = s.mag ∧
    (s.update dt smooth).reserve = s.reserve ∧
    (s.update dt smooth).reloadTimer = s.reloadTimer ∧
    (s.update dt smooth).type = s.type := by
  obtain ⟨t, mag, res, cd, rt, aim, zoom⟩ := s
  simp only at hrt
  unfold WeaponState.update
  dsimp only
  split_ifs
  all_goals first
    | exact ⟨rfl, rfl, rfl, rfl⟩
    | exact absurd (by assumption : (0 : ℚ) < rt) (not_lt.mpr hrt)

/-- getMaxMag only depends on the weapon type. -/
theorem getMaxMag_congr (s1 s2 : WeaponState) (h : s1.type = s2.type) :
    s1.getMaxMag = s2.getMaxMag := by
  unfold WeaponState.getMaxMag
  rw [h]

/-- consumeShot keeps the type and reserve, and the magazine either stays or
is decremented with a clamp at zero. -/
theorem consumeShot_fields (s : WeaponState) :
    (s.consumeShot).type = s.type ∧ (s.consumeShot).reserve = s.reserve ∧
    ((s.consumeShot).mag = s.mag ∨ (s.consumeShot).mag = max 0 (s.mag - 1)) := by
  obtain ⟨t, mag, res, cd, rt, aim, zoom⟩ := s
  cases t <;> simp [WeaponState.consumeShot]

/-- One valid weapon operation preserves the ammo invariant. -/
theorem winv_applyW (s : WeaponState) (op : WOp) (hv : op.valid) (h : WInv s) :
    WInv (applyW s op) := by
  obtain ⟨h0, h1, h2⟩ := h
  cases op with
  | setW t =>
    cases t <;>
      simp [applyW, WeaponState.setWeapon, WInv, WeaponState.getMaxMag] <;> norm_num
  | startR =>
    show WInv s.startReload.1
    obtain ⟨ht, hm, hr, _⟩ := startReload_fields s
    have hmm : (s.startReload.1).getMaxMag = s.getMaxMag := getMaxMag_congr _ _ ht
    exact ⟨by rw [hm]; exact h0, by rw [hm, hmm]; exact h1, by rw [hr]; exact h2⟩
  | upd dt smooth =>
    show WInv (s.update dt smooth)
    by_cases hrt : 0 < s.reloadTimer
    · by_cases hel : s.reloadTimer ≤ dt
      · obtain ⟨hm, hr, _, ht⟩ := update_reload_elapse s dt smooth hrt hel
        have hmm : (s.update dt smooth).getMaxMag = s.getMaxMag := getMaxMag_congr _ _ ht
        have hmax : max 0 (s.getMaxMag - s.mag) = s.getMaxMag - s.mag :=
          max_eq_right (sub_nonneg.mpr h1)
        have ha0 : 0 ≤ min s.reserve (max 0 (s.getMaxMag - s.mag)) :=
          le_min h2 (le_max_left _ _)
        have ha1 : min s.reserve (max 0 (s.getMaxMag - s.mag)) ≤ s.reserve :=
          min_le_left _ _
        have ha2 : min s.reserve (max 0 (s.getMaxMag - s.mag)) ≤ s.getMaxMag - s.mag := by
          rw [hmax] at ha0 ⊢
          exact min_le_right _ _
        refine ⟨?_, ?_, ?_⟩
        · rw [hm]; linarith
        · rw [hm, hmm]; linarith
        · rw [hr]; linarith
      · obtain ⟨hm, hr, _, ht⟩ := update_reload_partial s dt smooth hrt (not_le.mp hel)
        have hmm : (s.update dt smooth).getMaxMag = s.getMaxMag := getMaxMag_congr _ _ ht
        exact ⟨by rw [hm]; exact h0, by rw [hm, hmm]; exact h1, by rw [hr]; exact h2⟩
    · obtain ⟨hm, hr, _, ht⟩ := update_no_reload s dt smooth (not_lt.mp hrt)
      have hmm : (s.update dt smooth).getMaxMag = s.getMaxMag := getMaxMag_congr _ _ ht
      exact ⟨by rw [hm]; exact h0, by rw [hm, hmm]; exact h1, by rw [hr]; exact h2⟩
  | consume =>
    show WInv s.consumeShot
    obtain ⟨ht, hr, hm⟩ := consumeShot_fields s
    have hmm : (s.consumeShot).getMaxMag = s.getMaxMag := getMaxMag_congr _ _ ht
    rcases hm with hm | hm
    · exact ⟨by rw [hm]; exact h0, by rw [hm, hmm]; exact h1, by rw [hr]; exact h2⟩
    · refine ⟨by rw [hm]; exact le_max_left _ _, ?_, by rw [hr]; exact h2⟩
      rw [hm, hmm]
      exact le_trans (max_le h0 (by linarith)) h1

/-- One kill event never decreases either score. -/
theorem stepKill_score_mono (s : RoundState) (k : PlayerId) :
    s.scoreP1 ≤ (s.stepKill k).scoreP1 ∧ s.scoreP2 ≤ (s.stepKill k).scoreP2 := by
  unfold RoundState.stepKill RoundState.onKill
  split_ifs with h
  · cases k <;> dsimp only [RoundState.score] <;> split_ifs <;> constructor <;> simp
  · exact ⟨le_refl _, le_refl _⟩

/-- Once the round is in WIN, a kill event changes nothing. -/
theorem stepKill_win_absorb (s : RoundState) (k : PlayerId) (h : s.phase = .win) :
    s.stepKill k = s := by
  unfold RoundState.stepKill
  rw [if_neg]
  rw [combatActive, h]
  simp

/-- One kill event preserves the score/phase characterisation of WIN. -/
theorem stepKill_inv (s : RoundState) (k : PlayerId)
    (h : s.phase = .win ↔ (WIN_KILLS ≤ s.scoreP1 ∨ WIN_KILLS ≤ s.scoreP2)) :
    (s.stepKill k).phase = .win ↔
      (WIN_KILLS ≤ (s.stepKill k).scoreP1 ∨ WIN_KILLS ≤ (s.stepKill k).scoreP2) := by
  unfold RoundState.stepKill RoundState.onKill
  by_cases hc : combatActive s.phase
  · have hph : s.phase = .elevator ∨ s.phase = .play := by
      revert hc
      unfold combatActive
      cases s.phase <;> simp
    have hnw : s.phase ≠ .win := by
      rcases hph with h1 | h1 <;> rw [h1] <;> simp
    have hlt1 : s.scoreP1 < WIN_KILLS := by
      by_contra hge
      exact hnw (h.mpr (Or.inl (not_lt.mp hge)))
    have hlt2 : s.scoreP2 < WIN_KILLS := by
      by_contra hge
      exact hnw (h.mpr (Or.inr (not_lt.mp hge)))
    rw [if_pos hc]
    cases k <;> dsimp only [RoundState.score] <;> split_ifs with hw <;> dsimp only
    · exact iff_of_true rfl (Or.inl hw)
    · refine iff_of_false hnw ?_
      rintro (hx | hx)
      · exact hw hx
      · omega
    · exact iff_of_true rfl (Or.inr hw)
    · refine iff_of_false hnw ?_
      rintro (hx | hx)
      · omega
      · exact hw hx
  · rw [if_neg hc]
    exact h

/-- A kill sequence preserves the score/phase characterisation of WIN. -/
theorem runKills_inv (ks : List PlayerId) (s : RoundState)
    (h : s.phase = .win ↔ (WIN_KILLS ≤ s.scoreP1 ∨ WIN_KILLS ≤ s.scoreP2)) :
    (s.runKills ks).phase = .win ↔
      (WIN_KILLS ≤ (s.runKills ks).scoreP1 ∨ WIN_KILLS ≤ (s.runKills ks).scoreP2) := by
  induction ks generalizing s with
  | nil => exact h
  | cons k rest ih => exact ih (s.stepKill k) (stepKill_inv s k h)

/-- Scores never decrease along a kill sequence. -/
theorem runKills_score_mono (ks : List PlayerId) (s : RoundState) :
    s.scoreP1 ≤ (s.runKills ks).scoreP1 ∧ s.scoreP2 ≤ (s.runKills ks).scoreP2 := by
  induction ks generalizing s with
  | nil => exact ⟨le_refl _, le_refl _⟩
  | cons k rest ih =>
    obtain ⟨h1, h2⟩ := stepKill_score_mono s k
    obtain ⟨h3, h4⟩ := ih (s.stepKill k)
    exact ⟨le_trans h1 h3, le_trans h2 h4⟩

/-- A round in WIN is unchanged by any further kill sequence. -/
theorem runKills_win_absorb (ks : List PlayerId) (s : RoundState)
    (h : s.phase = .win) : s.runKills ks = s := by
  induction ks generalizing s with
  | nil => rfl
  | cons k rest ih =>
    show (s.stepKill k).runKills rest = s
    rw [stepKill_win_absorb s k h]
    exact ih s h

/-- A weapon with an empty magazine (other than the knife) can never shoot. -/
theorem canShoot_false_of_empty (s : WeaponState) (htype : s.type ≠ .knife)
    (hmag : s.mag = 0) : s.canShoot = false := by
  unfold WeaponState.canShoot
  split_ifs <;> simp_all

/-- After pushing the body out of the box along one axis by that axis's
overlap (in the direction away from the box centre), the remaining
penetration on that axis is not positive.  Scalar form, shared by the X and Z
axes of the collision resolver. -/
theorem resolve_axis_push_le (v bl br : ℚ) (h1 : bl ≤ v + PLAYER_RADIUS)
    (h2 : v - PLAYER_RADIUS ≤ br) :
    min (v + (if v < (bl + br) / 2 then (-1 : ℚ) else 1) *
          min (v + PLAYER_RADIUS - bl) (br - (v - PLAYER_RADIUS)) + PLAYER_RADIUS - bl)
        (br - (v + (if v < (bl + br) / 2 then (-1 : ℚ) else 1) *
          min (v + PLAYER_RADIUS - bl) (br - (v - PLAYER_RADIUS)) - PLAYER_RADIUS)) ≤ 0 := by
  by_cases hdir : v < (bl + br) / 2
  · rw [if_pos hdir,
      min_eq_left (by linarith : v + PLAYER_RADIUS - bl ≤ br - (v - PLAYER_RADIUS))]
    calc
      min (v + -1 * (v + PLAYER_RADIUS - bl) + PLAYER_RADIUS - bl)
          (br - (v + -1 * (v + PLAYER_RADIUS - bl) - PLAYER_RADIUS)) ≤
          v + -1 * (v + PLAYER_RADIUS - bl) + PLAYER_RADIUS - bl := min_le_left _ _
      _ ≤ 0 := by linarith
  · have hge : (bl + br) / 2 ≤ v := not_lt.mp hdir
    rw [if_neg hdir,
      min_eq_right (by linarith : br - (v - PLAYER_RADIUS) ≤ v + PLAYER_RADIUS - bl)]
    calc
      min (v + 1 * (br - (v - PLAYER_RADIUS)) + PLAYER_RADIUS - bl)
          (br - (v + 1 * (br - (v - PLAYER_RADIUS)) - PLAYER_RADIUS)) ≤
          br - (v + 1 * (br - (v - PLAYER_RADIUS)) - PLAYER_RADIUS) := min_le_right _ _
      _ ≤ 0 := by linarith

/-! ## Theorems -/

/-- Claim C1: within a round, for every sequence of kill events the match
state is WIN exactly when some score has reached the threshold of 10 (so the
transition happens at the kill that first reaches it and never before),
scores never decrease under further kill events, and once WIN is reached no
further kill event changes the round state at all. -/
theorem kill_threshold_win (ks more : List PlayerId) :
    ((roundStart.runKills ks).phase = .win ↔
      (WIN_KILLS ≤ (roundStart.runKills ks).scoreP1 ∨
       WIN_KILLS ≤ (roundStart.runKills ks).scoreP2)) ∧
    ((roundStart.runKills ks).scoreP1 ≤ (roundStart.runKills (ks ++ more)).scoreP1 ∧
     (roundStart.runKills ks).scoreP2 ≤ (roundStart.runKills (ks ++ more)).scoreP2) ∧
    ((roundStart.runKills ks).phase = .win →
      roundStart.runKills (ks ++ more) = roundStart.runKills ks) := by
  have hbase : roundStart.phase = .win ↔
      (WIN_KILLS ≤ roundStart.scoreP1 ∨ WIN_KILLS ≤ roundStart.scoreP2) := by
    unfold roundStart WIN_KILLS
    refine iff_of_false (by simp) ?_
    rintro (hx | hx) <;> dsimp only at hx <;> omega
  have happ : roundStart.runKills (ks ++ more) = (roundStart.runKills ks).runKills more := by
    unfold RoundState.runKills
    exact List.foldl_append _ _ _ _
  refine ⟨runKills_inv ks roundStart hbase, ?_, ?_⟩
  · rw [happ]
    exact runKills_score_mono more (roundStart.runKills ks)
  · intro hwin
    rw [happ]
    exact runKills_win_absorb more _ hwin

/-- Witness for C1: ten P1 kills enter WIN, and a further kill event leaves
the state untouched. -/
theorem kill_threshold_win_witness :
    (roundStart.runKills
      [.p1, .p1, .p1, .p1, .p1, .p1, .p1, .p1, .p1, .p1]).phase = .win ∧
    roundStart.runKills
        ([.p1, .p1, .p1, .p1, .p1, .p1, .p1, .p1, .p1, .p1] ++ [PlayerId.p2]) =
      roundStart.runKills [.p1, .p1, .p1, .p1, .p1, .p1, .p1, .p1, .p1, .p1] :=
  ⟨by decide,
   (kill_threshold_win [.p1, .p1, .p1, .p1, .p1, .p1, .p1, .p1, .p1, .p1]
     [PlayerId.p2]).2.2 (by decide)⟩

/-- Claim C4: one resolution pass against one enabled, overlapping collider
pushes the player out along the axis (X or Z) with the smaller penetration by
exactly that penetration depth, zeroes that axis's velocity component and
leaves the other horizontal axis untouched; afterwards the player's AABB no
longer has strictly positive penetration depth on both the X and Z axes
against that collider. -/
theorem collision_pass_separates (p : Body) (b : Box3) (hov : ¬aabbSeparated p b) :
    ¬(0 < penX (resolveCollider p b) b ∧ 0 < penZ (resolveCollider p b) b) ∧
    (penX p b < penZ p b →
      (resolveCollider p b).pos.x =
        p.pos.x + (if p.pos.x < (b.min.x + b.max.x) / 2 then (-1 : ℚ) else 1) * penX p b ∧
      (resolveCollider p b).vel.x = 0 ∧
      (resolveCollider p b).pos.z = p.pos.z ∧
      (resolveCollider p b).vel.z = p.vel.z) ∧
    (penZ p b ≤ penX p b →
      (resolveCollider p b).pos.z =
        p.pos.z + (if p.pos.z < (b.min.z + b.max.z) / 2 then (-1 : ℚ) else 1) * penZ p b ∧
      (resolveCollider p b).vel.z = 0 ∧
      (resolveCollider p b).pos.x = p.pos.x ∧
      (resolveCollider p b).vel.x = p.vel.x) := by
  obtain ⟨⟨px, py, pz⟩, ⟨vx, vy, vz⟩⟩ := p
  obtain ⟨⟨ax, ay, az⟩, ⟨cx, cy, cz⟩⟩ := b
  have hov2 := hov
  unfold aabbSeparated at hov2
  push_neg at hov2
  simp only at hov2
  obtain ⟨hx1, hx2, hy1, hy2, hz1, hz2⟩ := hov2
  unfold resolveCollider penX penZ
  rw [if_neg hov]
  dsimp only
  by_cases hxz : min (px + PLAYER_RADIUS - ax) (cx - (px - PLAYER_RADIUS)) <
      min (pz + PLAYER_RADIUS - az) (cz - (pz - PLAYER_RADIUS))
  · rw [if_pos hxz]
    refine ⟨?_, fun _ => ⟨rfl, rfl, rfl, rfl⟩,
      fun hle => absurd hxz (not_lt.mpr hle)⟩
    rintro ⟨hq, -⟩
    exact absurd hq (not_lt.mpr (resolve_axis_push_le px ax cx hx1 hx2))
  · rw [if_neg hxz]
    refine ⟨?_, fun hlt => absurd hlt hxz, fun _ => ⟨rfl, rfl, rfl, rfl⟩⟩
    rintro ⟨-, hq⟩
    exact absurd hq (not_lt.mpr (resolve_axis_push_le pz az cz hz1 hz2))

/-- Witness for C4: a body standing just inside the X face of a prop box is
resolved so that the penetrations on X and Z are no longer both positive. -/
theorem collision_pass_separates_witness :
    ¬aabbSeparated ⟨⟨0, 0, 0⟩, ⟨1, 2, 3⟩⟩ ⟨⟨2 / 5, -1, -2⟩, ⟨3, 2, 2⟩⟩ ∧
    ¬(0 < penX (resolveCollider ⟨⟨0, 0, 0⟩, ⟨1, 2, 3⟩⟩ ⟨⟨2 / 5, -1, -2⟩, ⟨3, 2, 2⟩⟩)
          ⟨⟨2 / 5, -1, -2⟩, ⟨3, 2, 2⟩⟩ ∧
      0 < penZ (resolveCollider ⟨⟨0, 0, 0⟩, ⟨1, 2, 3⟩⟩ ⟨⟨2 / 5, -1, -2⟩, ⟨3, 2, 2⟩⟩)
          ⟨⟨2 / 5, -1, -2⟩, ⟨3, 2, 2⟩⟩) := by
  have hov : ¬aabbSeparated ⟨⟨0, 0, 0⟩, ⟨1, 2, 3⟩⟩ ⟨⟨2 / 5, -1, -2⟩, ⟨3, 2, 2⟩⟩ := by
    norm_num [aabbSeparated, PLAYER_RADIUS, PLAYER_HEIGHT]
  exact ⟨hov, (collision_pass_separates _ _ hov).1⟩

/-- Claim C2: for every player whose invulnerability timer is strictly
positive (or who is already dead) and every damage amount ≥ 0, `takeDamage`
reports no kill and leaves the entire player state — in particular health,
the dead flag and the death timer — unchanged. -/
theorem takeDamage_invuln_or_dead_noop (p : Player) (amount : ℚ)
    (hamt : 0 ≤ amount) (h : 0 < p.invulnTimer ∨ p.dead = true) :
    (p.takeDamage amount).2 = false ∧ (p.takeDamage amount).1 = p := by
  rcases h with h | h <;> simp [Player.takeDamage, h]

/-- Witness for C2 at a concrete invulnerable player and amount 25. -/
theorem takeDamage_invuln_or_dead_noop_witness :
    (0 ≤ (25 : ℚ) ∧ 0 < ({ Player.init with invulnTimer := 3 } : Player).invulnTimer) ∧
    (({ Player.init with invulnTimer := 3 } : Player).takeDamage 25).2 = false ∧
    (({ Player.init with invulnTimer := 3 } : Player).takeDamage 25).1 =
      { Player.init with invulnTimer := 3 } :=
  ⟨⟨by norm_num, by norm_num⟩,
   takeDamage_invuln_or_dead_noop _ 25 (by norm_num) (Or.inl (by norm_num))⟩

/-- Claim C7: `setWeapon X` is idempotent and always performs a complete
reset of the weapon state (magazine, reserve, cooldown, reload timer, charge
flag and charge value) to the type's defaults, regardless of prior state. -/
theorem setWeapon_idempotent_total_reset (s s2 : WeaponState) (t : WeaponType) :
    (s.setWeapon t).setWeapon t = s.setWeapon t ∧ s.setWeapon t = s2.setWeapon t := by
  cases t <;> exact ⟨rfl, rfl⟩

/-- Counterexample to Claim C5 as stated: a dead player requests the task
whose index equals its task level, yet the request is rejected
(`_tryOpenTask` returns before the index check when the player is dead). -/
theorem tryOpenTask_dead_rejected_counterexample :
    ({ Player.init with dead := true } : Player).taskLevel = 0 ∧
    (tryOpenTask { Player.init with dead := true } 0).2 = false := by
  constructor <;> rfl

/-- Claim C5 (amended): a task-open request is accepted iff the player is
alive and the index equals the player's task level; completion with the
matching index advances the task level by exactly one, clamped to at most 3,
and re-equips the weapon tier mapped from the new level. -/
theorem tryOpenTask_gating_and_completion (p : Player) (w : WeaponState) (idx : ℤ)
    (hlvl : 0 ≤ p.taskLevel) :
    ((tryOpenTask p idx).2 = true ↔ p.dead = false ∧ idx = p.taskLevel) ∧
    (idx = p.taskLevel →
      (onTaskComplete p w idx).1.taskLevel = min (p.taskLevel + 1) 3 ∧
      (onTaskComplete p w idx).2 =
        w.setWeapon (weaponForTaskLevel (min (p.taskLevel + 1) 3))) := by
  constructor
  · unfold tryOpenTask
    split_ifs with h1 h2
    · simp [h1]
    · simp [h2]
    · simp_all
  · intro hidx
    have hcl : clamp (p.taskLevel + 1) 0 3 = min (p.taskLevel + 1) 3 := by
      unfold clamp; omega
    unfold onTaskComplete
    rw [if_neg (by simp [hidx])]
    simp [hcl]

/-- Witness for C5 (amended) at the initial (alive, level-0) player. -/
theorem tryOpenTask_gating_and_completion_witness :
    0 ≤ Player.init.taskLevel ∧
    (((tryOpenTask Player.init 0).2 = true ↔
        Player.init.dead = false ∧ (0 : ℤ) = Player.init.taskLevel) ∧
     ((0 : ℤ) = Player.init.taskLevel →
       (onTaskComplete Player.init WeaponState.init 0).1.taskLevel =
         min (Player.init.taskLevel + 1) 3 ∧
       (onTaskComplete Player.init WeaponState.init 0).2 =
         WeaponState.init.setWeapon
           (weaponForTaskLevel (min (Player.init.taskLevel + 1) 3)))) :=
  ⟨by norm_num [Player.init],
   tryOpenTask_gating_and_completion Player.init WeaponState.init 0
     (by norm_num [Player.init])⟩

/-- Claim C3: under the ammo invariant, `startReload` fails exactly on the
knife (no magazine concept), while a reload is in progress, with a full
magazine, or with an empty reserve; and when a running reload's timer elapses
within an update step the magazine grows by exactly
`min(reserve, maxMag - mag)` with the reserve shrinking by the same amount,
while a step that does not elapse the timer leaves the ammo untouched. -/
theorem startReload_gating_and_transfer (s : WeaponState) (dt smooth : ℚ)
    (hmag : s.mag ≤ s.getMaxMag) (hres : 0 ≤ s.reserve) :
    (s.startReload.2 = false ↔
      (s.type = .knife ∨ 0 < s.reloadTimer ∨ s.mag = s.getMaxMag ∨ s.reserve = 0)) ∧
    (0 < s.reloadTimer → s.reloadTimer ≤ dt →
      (s.update dt smooth).mag = s.mag + min s.reserve (s.getMaxMag - s.mag) ∧
      (s.update dt smooth).reserve = s.reserve - min s.reserve (s.getMaxMag - s.mag) ∧
      (s.update dt smooth).reloadTimer = 0) ∧
    (0 < s.reloadTimer → dt < s.reloadTimer →
      (s.update dt smooth).mag = s.mag ∧
      (s.update dt smooth).reserve = s.reserve ∧
      (s.update dt smooth).reloadTimer = s.reloadTimer - dt) := by
  have hsub : max 0 (s.getMaxMag - s.mag) = s.getMaxMag - s.mag :=
    max_eq_right (sub_nonneg.mpr hmag)
  refine ⟨?_, ?_, ?_⟩
  · unfold WeaponState.startReload
    split_ifs with h1 h2 h3 h4
    · simp [h1]
    · simp [h2]
    · have heq : s.mag = s.getMaxMag := le_antisymm hmag h3
      simp [heq]
    · have heq : s.reserve = 0 := le_antisymm h4 hres
      simp [heq]
    · have hne1 : s.mag ≠ s.getMaxMag := ne_of_lt (lt_of_not_le h3)
      have hne2 : s.reserve ≠ 0 := ne_of_gt (lt_of_not_le h4)
      simp [h1, h2, hne1, hne2]
  · intro hrt hel
    obtain ⟨hm, hr, h0, _⟩ := update_reload_elapse s dt smooth hrt hel
    rw [hsub] at hm hr
    exact ⟨hm, hr, h0⟩
  · intro hrt hel
    obtain ⟨hm, hr, h0, _⟩ := update_reload_partial s dt smooth hrt hel
    exact ⟨hm, hr, h0⟩

/-- Witness for C3 at a freshly reloading pistol state (magazine 3 of 12,
reserve 48, reload timer 1.1) with dt = 2. -/
theorem startReload_gating_and_transfer_witness :
    (({ type := .pistol, mag := 3, reserve := 48, cooldown := 0,
        reloadTimer := 11 / 10, sniperAiming := false, sniperZoom01 := 0 } :
          WeaponState).mag ≤
        ({ type := .pistol, mag := 3, reserve := 48, cooldown := 0,
           reloadTimer := 11 / 10, sniperAiming := false, sniperZoom01 := 0 } :
             WeaponState).getMaxMag ∧
      (0 : ℤ) ≤
        ({ type := .pistol, mag := 3, reserve := 48, cooldown := 0,
           reloadTimer := 11 / 10, sniperAiming := false, sniperZoom01 := 0 } :
             WeaponState).reserve) ∧
    (({ type := .pistol, mag := 3, reserve := 48, cooldown := 0,
        reloadTimer := 11 / 10, sniperAiming := false, sniperZoom01 := 0 } :
          WeaponState).update 2 0).mag = 12 := by
  have h := startReload_gating_and_transfer
    { type := .pistol, mag := 3, reserve := 48, cooldown := 0,
      reloadTimer := 11 / 10, sniperAiming := false, sniperZoom01 := 0 } 2 0
    (by norm_num [WeaponState.getMaxMag]) (by norm_num)
  refine ⟨⟨by norm_num [WeaponState.getMaxMag], by norm_num⟩, ?_⟩
  obtain ⟨hm, _, _⟩ := h.2.1 (by norm_num) (by norm_num)
  rw [hm]
  norm_num [WeaponState.getMaxMag]

/-- Claim C6: a fire attempt with an empty magazine and positive reserve
dispatches no shot (magazine and cooldown unchanged, no raycast), leaves a
reload running, and once that reload's timer elapses the magazine equals
`min(reserve, maxMag)`. -/
theorem empty_mag_auto_reload (s : WeaponState) (dt smooth : ℚ)
    (htype : s.type ≠ .knife) (hmag : s.mag = 0) (hres : 0 < s.reserve) :
    (shootHitscanAmmo s).2 = false ∧
    (shootHitscanAmmo s).1.mag = s.mag ∧
    (shootHitscanAmmo s).1.cooldown = s.cooldown ∧
    0 < (shootHitscanAmmo s).1.reloadTimer ∧
    ((shootHitscanAmmo s).1.reloadTimer ≤ dt →
      ((shootHitscanAmmo s).1.update dt smooth).mag = min s.reserve s.getMaxMag) := by
  have hcs : s.canShoot = false := canShoot_false_of_empty s htype hmag
  have hfire : shootHitscanAmmo s = (s.startReload.1, false) := by
    unfold shootHitscanAmmo
    rw [if_neg (by simp [hcs]), if_pos hmag]
  rw [hfire]
  have hmax0 : max 0 (s.getMaxMag - s.mag) = s.getMaxMag := by
    rw [hmag, sub_zero]
    exact max_eq_right (getMaxMag_nonneg s)
  unfold WeaponState.startReload
  rw [if_neg htype]
  by_cases hrt : 0 < s.reloadTimer
  · rw [if_pos hrt]
    refine ⟨rfl, rfl, rfl, hrt, fun hel => ?_⟩
    obtain ⟨hm, _, _, _⟩ := update_reload_elapse s dt smooth hrt hel
    rw [hm, hmag, sub_zero, max_eq_right (getMaxMag_nonneg s), zero_add]
  · rw [if_neg hrt, if_neg (by rw [hmag]; exact not_le.mpr (getMaxMag_pos_of_ne_knife s htype)),
      if_neg (not_le.mpr hres)]
    refine ⟨rfl, rfl, rfl, reloadDuration_pos s.type, fun hel => ?_⟩
    have hrt2 : 0 < ({ s with reloadTimer := reloadDuration s.type } : WeaponState).reloadTimer :=
      reloadDuration_pos s.type
    obtain ⟨hm, _, _, _⟩ :=
      update_reload_elapse { s with reloadTimer := reloadDuration s.type } dt smooth hrt2 hel
    rw [hm]
    show s.mag + min s.reserve (max 0 (s.getMaxMag - s.mag)) = min s.reserve s.getMaxMag
    rw [hmag, sub_zero, max_eq_right (getMaxMag_nonneg s), zero_add]

/-- Witness for C6 at an empty pistol (reserve 48) with dt = 2: the attempt
starts a reload and the elapsed reload fills the magazine to 12. -/
theorem empty_mag_auto_reload_witness :
    (({ type := .pistol, mag := 0, reserve := 48, cooldown := 0, reloadTimer := 0,
        sniperAiming := false, sniperZoom01 := 0 } : WeaponState).type ≠ .knife ∧
     ({ type := .pistol, mag := 0, reserve := 48, cooldown := 0, reloadTimer := 0,
        sniperAiming := false, sniperZoom01 := 0 } : WeaponState).mag = 0 ∧
     (0 : ℤ) <
       ({ type := .pistol, mag := 0, reserve := 48, cooldown := 0, reloadTimer := 0,
          sniperAiming := false, sniperZoom01 := 0 } : WeaponState).reserve) ∧
    (shootHitscanAmmo
      { type := .pistol, mag := 0, reserve := 48, cooldown := 0, reloadTimer := 0,
        sniperAiming := false, sniperZoom01 := 0 }).2 = false ∧
    ((shootHitscanAmmo
      { type := .pistol, mag := 0, reserve := 48, cooldown := 0, reloadTimer := 0,
        sniperAiming := false, sniperZoom01 := 0 }).1.update 2 0).mag = 12 := by
  have hred : shootHitscanAmmo
      { type := .pistol, mag := 0, reserve := 48, cooldown := 0, reloadTimer := 0,
        sniperAiming := false, sniperZoom01 := 0 } =
      ({ type := .pistol, mag := 0, reserve := 48, cooldown := 0, reloadTimer := 11 / 10,
         sniperAiming := false, sniperZoom01 := 0 }, false) := by
    simp [shootHitscanAmmo, WeaponState.canShoot, WeaponState.startReload,
      reloadDuration, WeaponState.getMaxMag]
  have h := empty_mag_auto_reload
    { type := .pistol, mag := 0, reserve := 48, cooldown := 0, reloadTimer := 0,
      sniperAiming := false, sniperZoom01 := 0 } 2 0
    (by decide) rfl (by norm_num)
  refine ⟨⟨by decide, rfl, by norm_num⟩, h.1, ?_⟩
  have helapse := h.2.2.2.2 (by rw [hred]; norm_num)
  rw [helapse]
  norm_num [WeaponState.getMaxMag, min_def]

/-- Claim C9: along every valid operation sequence (setWeapon, startReload,
update with dt ≥ 0, consumeShot) from the initial weapon state, the
invariant `0 ≤ magazine ≤ maxMag(current type)` and `0 ≤ reserve` holds. -/
theorem weapon_ammo_invariant (ops : List WOp) (hv : ∀ op ∈ ops, op.valid) :
    WInv (runW WeaponState.init ops) := by
  have hbase : WInv WeaponState.init := by
    refine ⟨le_refl 0, ?_, le_refl 0⟩
    norm_num [WeaponState.init, WeaponState.getMaxMag]
  suffices hgen : ∀ (l : List WOp) (s : WeaponState),
      (∀ op ∈ l, op.valid) → WInv s → WInv (runW s l) from hgen ops WeaponState.init hv hbase
  intro l
  induction l with
  | nil => intro s _ hs; exact hs
  | cons op rest ih =>
    intro s hv2 hs
    exact ih (applyW s op)
      (fun o ho => hv2 o (List.mem_cons_of_mem _ ho))
      (winv_applyW s op (hv2 op (List.mem_cons_self _ _)) hs)

/-- Witness for C9 on a concrete operation sequence: equip the pistol, fire
once, start a reload and let it elapse. -/
theorem weapon_ammo_invariant_witness :
    (∀ op ∈ [WOp.setW .pistol, WOp.consume, WOp.startR, WOp.upd 2 0], op.valid) ∧
    WInv (runW WeaponState.init [WOp.setW .pistol, WOp.consume, WOp.startR, WOp.upd 2 0]) := by
  have hv : ∀ op ∈ [WOp.setW .pistol, WOp.consume, WOp.startR, WOp.upd 2 0], op.valid := by
    intro op hop
    fin_cases hop <;> simp [WOp.valid] <;> norm_num
  exact ⟨hv, weapon_ammo_invariant _ hv⟩

/-- Claim C10: in every reachable player state, `dead = false` implies
`hp > 0`; the (strengthened, `maxHp = 100`) invariant holds for the
constructor and is preserved by takeDamage with any amount ≥ 0 and by
respawnAt, which restores full health and clears the dead flag. -/
theorem player_health_dead_invariant :
    PInv Player.init ∧
    (∀ (p : Player) (amount : ℚ), 0 ≤ amount → PInv p → PInv (p.takeDamage amount).1) ∧
    (∀ (p : Player) (pos : Vec3), PInv p →
      PInv (p.respawnAt pos) ∧ (p.respawnAt pos).hp = p.maxHp ∧
      (p.respawnAt pos).dead = false) := by
  refine ⟨⟨fun _ => by norm_num [Player.init], rfl⟩, ?_, ?_⟩
  · intro p amount hamt hp
    unfold Player.takeDamage
    dsimp only
    split_ifs with h1 h2
    · exact hp
    · exact ⟨fun hd => absurd hd (by simp), hp.2⟩
    · exact ⟨fun _ => not_le.mp h2, hp.2⟩
  · intro p pos hp
    refine ⟨⟨fun _ => ?_, hp.2⟩, rfl, rfl⟩
    show (0 : ℚ) < p.maxHp
    rw [hp.2]
    norm_num

/-- Witness for C10: the invariant holds after hitting the fresh player for
30 damage, and after a respawn. -/
theorem player_health_dead_invariant_witness :
    (0 ≤ (30 : ℚ) ∧ PInv Player.init) ∧
    PInv (Player.init.takeDamage 30).1 ∧
    (PInv (Player.init.respawnAt Vec3.zero) ∧
     (Player.init.respawnAt Vec3.zero).hp = Player.init.maxHp ∧
     (Player.init.respawnAt Vec3.zero).dead = false) :=
  ⟨⟨by norm_num, player_health_dead_invariant.1⟩,
   player_health_dead_invariant.2.1 Player.init 30 (by norm_num)
     player_health_dead_invariant.1,
   player_health_dead_invariant.2.2 Player.init Vec3.zero
     player_health_dead_invariant.1⟩

/-- Claim C8: from the ELEVATOR phase, one frame transitions to PLAY exactly
when, after this frame's updates, the door-open ramp has reached 1 and the
fight-banner timer has run down to 0; otherwise the phase stays ELEVATOR.
The hypothesis `0 < s.t → s.doorOpen01 = 0` is the reachable-state fact that
the door stays closed until the countdown has elapsed. -/
theorem elevator_to_play_iff (s : ElevState) (dt : ℚ)
    (hph : s.phase = .elevator) (hdt : 0 ≤ dt)
    (hdoor : 0 < s.t → s.doorOpen01 = 0) :
    ((elevatorStep s dt).phase = .play ↔
      (elevatorStep s dt).doorOpen01 = 1 ∧ (elevatorStep s dt).fightMsgTimer = 0) ∧
    ((elevatorStep s dt).phase = .play ∨ (elevatorStep s dt).phase = .elevator) := by
  unfold elevatorStep
  rw [if_neg (by simp [hph])]
  by_cases ht : max 0 (s.t - dt) ≤ 0
  · rw [if_pos ht]
    dsimp only
    by_cases hc :
        1 ≤ min 1 (s.doorOpen01 + dt * (12 / 10)) ∧
        max 0 ((if s.fightMsgTimer ≤ 0 then (16 / 10 : ℚ) else s.fightMsgTimer) - dt) ≤ 0
    · have hdoorEq : min 1 (s.doorOpen01 + dt * (12 / 10)) = 1 :=
        le_antisymm (min_le_left _ _) hc.1
      have hfmEq :
          max 0 ((if s.fightMsgTimer ≤ 0 then (16 / 10 : ℚ) else s.fightMsgTimer) - dt) = 0 :=
        le_antisymm hc.2 (le_max_left _ _)
      rw [if_pos hc]
      exact ⟨⟨fun _ => ⟨hdoorEq, hfmEq⟩, fun _ => rfl⟩, Or.inl rfl⟩
    · rw [if_neg hc]
      refine ⟨⟨fun hpl => absurd hpl (by decide), fun hrhs => absurd ?_ hc⟩, Or.inr rfl⟩
      exact ⟨le_of_eq hrhs.1.symm, le_of_eq hrhs.2⟩
  · rw [if_neg ht]
    have hst : 0 < s.t := by
      have h0 : 0 < max 0 (s.t - dt) := not_le.mp ht
      rcases lt_max_iff.mp h0 with h | h
      · exact absurd h (lt_irrefl 0)
      · linarith
    have hdz : s.doorOpen01 = 0 := hdoor hst
    refine ⟨⟨fun hpl => ?_, fun hrhs => ?_⟩, Or.inr ?_⟩
    · rw [show ({ s with t := max 0 (s.t - dt) } : ElevState).phase = s.phase from rfl,
        hph] at hpl
      exact absurd hpl (by decide)
    · rw [show ({ s with t := max 0 (s.t - dt) } : ElevState).doorOpen01 = s.doorOpen01
        from rfl, hdz] at hrhs
      exact absurd hrhs.1 (by norm_num)
    · rw [show ({ s with t := max 0 (s.t - dt) } : ElevState).phase = s.phase from rfl, hph]

/-- Witness for C8: a frame where the countdown is over, the door reaches 1
and the banner timer reaches 0 in the same step, entering PLAY. -/
theorem elevator_to_play_iff_witness :
    (({ phase := .elevator, t := 0, doorOpen01 := 9 / 10, fightMsgTimer := 1 / 20 } :
        ElevState).phase = .elevator ∧ (0 : ℚ) ≤ 1 / 10) ∧
    ((elevatorStep
        { phase := .elevator, t := 0, doorOpen01 := 9 / 10, fightMsgTimer := 1 / 20 }
        (1 / 10)).phase = .play ↔
      (elevatorStep
        { phase := .elevator, t := 0, doorOpen01 := 9 / 10, fightMsgTimer := 1 / 20 }
        (1 / 10)).doorOpen01 = 1 ∧
      (elevatorStep
        { phase := .elevator, t := 0, doorOpen01 := 9 / 10, fightMsgTimer := 1 / 20 }
        (1 / 10)).fightMsgTimer = 0) ∧
    ((elevatorStep
        { phase := .elevator, t := 0, doorOpen01 := 9 / 10, fightMsgTimer := 1 / 20 }
        (1 / 10)).phase = .play ∨
     (elevatorStep
        { phase := .elevator, t := 0, doorOpen01 := 9 / 10, fightMsgTimer := 1 / 20 }
        (1 / 10)).phase = .elevator) :=
  ⟨⟨rfl, by norm_num⟩,
   elevator_to_play_iff _ (1 / 10) rfl (by norm_num) (fun h => by norm_num at h)⟩

end Cookiez
